import Mathlib

/-!
Verification of the AAG CloudWatcher driver (`src/aag/weather.py`,
`src/aag/commands.py`, `src/aag/settings.py`) against its natural-language
specification.  The Python code is shallowly embedded: pure helpers become
Lean functions over `ℚ`/`ℤ`/`String`, the stateful `CloudSensor` methods
become explicit state-passing functions over a `SensorState` record, and the
nondeterminism of the serial device is captured by an environment record
holding one outcome per device query.  Floating-point transcendental values
(dew point, sea-level pressure, MPSAS) are carried symbolically as records of
the rational inputs they are computed from; every guard that decides whether
such a value is present or absent is translated exactly.
-/

namespace AAG

/-- Connection status enum (`ConnectionStatus` in weather.py). -/
inductive ConnectionStatus where
  | initializing
  | connected
  | disconnected
  | error
  | attemptingReconnect
deriving DecidableEq

/-- Cloud condition strings produced by `get_safe_reading`
('clear' / 'cloudy' / 'very cloudy' / 'unknown'). -/
inductive CloudCond where
  | clear
  | cloudy
  | very_cloudy
  | unknown
deriving DecidableEq

/-- Wind condition strings produced by `get_safe_reading`
('calm' / 'windy' / 'very windy' / 'gusty' / 'very gusty' / 'unknown'). -/
inductive WindCond where
  | calm
  | windy
  | very_windy
  | gusty
  | very_gusty
  | unknown
deriving DecidableEq

/-- Rain condition strings produced by `get_safe_reading`
('dry' / 'wet' / 'rainy' / 'unknown'). -/
inductive RainCond where
  | dry
  | wet
  | rainy
  | unknown
deriving DecidableEq

/-- Switch state as returned by `get_switch_status_custom` ("open" / "close"). -/
inductive SwitchState where
  | sopen
  | sclose
deriving DecidableEq

/-- `Thresholds` from settings.py with its defaults
(cloudy -25, very_cloudy -15, windy 50, very_windy 75, gusty 100,
very_gusty 125, wet 2200, rainy 1800).  The temperature and wind fields are
floats in the source (here `ℚ`); `wet` and `rainy` are ints. -/
structure Thresholds where
  cloudy : ℚ := -25
  very_cloudy : ℚ := -15
  windy : ℚ := 50
  very_windy : ℚ := 75
  gusty : ℚ := 100
  very_gusty : ℚ := 125
  wet : ℤ := 2200
  rainy : ℤ := 1800
deriving DecidableEq

/-- Symbolic carrier for the dew-point value: `get_reading` computes a
Magnus-form float from the clamped relative humidity and the ambient
temperature; only presence/absence of the value matters to any property
below, so the transcendental float is represented by its two inputs. -/
structure MagnusDew where
  T : ℚ
  RHactual : ℚ
deriving DecidableEq

/-- Symbolic carrier for the sky-quality (MPSAS) value computed by
`_calculate_mpsas`; the float logarithm is represented by its inputs
(raw light-sensor period and ambient temperature). -/
structure SkyQVal where
  period : ℤ
  ambient : ℚ
deriving DecidableEq

/-- Result of `get_pres_pressure`: either the absolute pressure returned
unchanged on one of the fallback branches, or the sea-level value
`round(absP * base ** (-5.275), 2)` represented symbolically by `absP` and
`base` (the float power is not modelled numerically). -/
inductive PresResult where
  | fallback (absP : ℚ)
  | seaLevel (absP : ℚ) (base : ℚ)
deriving DecidableEq

/-- The reading record assembled by `CloudSensor.get_reading`
(`final_reading_dict` / `processed_final_reading` in weather.py).
Measured quantities are `Option ℚ` (`None` in Python is `none`); the five
raw-value fields are plain integers because `get_values_raw` substitutes the
sentinel `-99` instead of an absent value. -/
structure Reading where
  timestamp : String := ""
  sky_temp : Option ℚ := none
  wind_speed : Option ℚ := none
  rain_frequency : Option ℚ := none
  humidity : Option ℚ := none
  pressure : Option ℚ := none
  RH_sensor_temp : Option ℚ := none
  pressure_temp : Option ℚ := none
  ambient_temp : Option ℚ := none
  switch : Option SwitchState := none
  pwm : Option ℚ := none
  light_sensor_period_raw : ℤ := 0
  ambient_temp_ntc_raw : ℤ := 0
  ambient_ldr_voltage_raw : ℤ := 0
  zener_voltage_raw : ℤ := 0
  rain_sensor_temp_ntc_raw : ℤ := 0
  pres_pressure : Option PresResult := none
  dew_point : Option MagnusDew := none
  sky_quality_mpsas : Option SkyQVal := none
  cloud_condition : CloudCond := .unknown
  wind_condition : WindCond := .unknown
  rain_condition : RainCond := .unknown
  cloud_safe : Bool := false
  wind_safe : Bool := false
  rain_safe : Bool := false
  is_safe : Bool := false
deriving DecidableEq

/-- Shallow embedding of `CloudSensor.get_safe_reading` (weather.py 592-698).
`ig` is the configured `ignore_unsafe` list; the Python truth test
`if self.config.ignore_unsafe:` is the test `ig ≠ []` here (a `None` config
value behaves like the empty list).  The cloud / wind / rain classification
chains, the safety flags, the unknown check and the ignore-override block are
translated branch for branch; note that the source stores the original flags
in the reading and applies the overrides only to local temporaries. -/
def get_safe_reading (th : Thresholds) (ig : List String) (reading : Reading) : Reading :=
  let cloud_condition : CloudCond :=
    match reading.sky_temp, reading.ambient_temp with
    | some st, some amb =>
      let temp_diff := st - amb
      if temp_diff ≥ th.very_cloudy then .very_cloudy
      else if temp_diff ≥ th.cloudy then .cloudy
      else .clear
    | _, _ => .unknown
  let wind_condition : WindCond :=
    match reading.wind_speed with
    | some ws =>
      if ws ≥ th.very_gusty then .very_gusty
      else if ws ≥ th.gusty then .gusty
      else if ws ≥ th.very_windy then .very_windy
      else if ws ≥ th.windy then .windy
      else .calm
    | none => .unknown
  let rain_condition : RainCond :=
    match reading.rain_frequency with
    | some rf =>
      if rf ≤ (th.rainy : ℚ) then .rainy
      else if rf ≤ (th.wet : ℚ) then .wet
      else .dry
    | none => .unknown
  let cloud_safe : Bool := decide (cloud_condition = .clear)
  let wind_safe : Bool := decide (wind_condition = .calm)
  let rain_safe : Bool := decide (rain_condition = .dry)
  let is_safe0 : Bool :=
    if cloud_condition = .unknown ∨ wind_condition = .unknown ∨ rain_condition = .unknown
    then false
    else cloud_safe && wind_safe && rain_safe
  let is_safe : Bool :=
    if ig = [] then is_safe0
    else
      let temp_cloud_safe := if "cloud" ∈ ig then true else cloud_safe
      let temp_wind_safe := if "wind" ∈ ig then true else wind_safe
      let temp_rain_safe := if "rain" ∈ ig then true else rain_safe
      if is_safe0 then true
      else temp_cloud_safe && temp_wind_safe && temp_rain_safe
  { reading with
      cloud_condition := cloud_condition
      wind_condition := wind_condition
      rain_condition := rain_condition
      cloud_safe := cloud_safe
      wind_safe := wind_safe
      rain_safe := rain_safe
      is_safe := is_safe }

/-- The wind classification exactly as claim C4 words it. -/
def wind_condition_claim (th : Thresholds) (ws : Option ℚ) : WindCond :=
  match ws with
  | none => .unknown
  | some w =>
    if w ≥ th.very_gusty then .very_gusty
    else if w ≥ th.gusty then .gusty
    else if w ≥ th.very_windy then .very_windy
    else if w ≥ th.windy then .windy
    else .calm

/-- The rain classification exactly as claim C5 words it. -/
def rain_condition_claim (th : Thresholds) (rf : Option ℚ) : RainCond :=
  match rf with
  | none => .unknown
  | some f =>
    if f ≤ (th.rainy : ℚ) then .rainy
    else if f ≤ (th.wet : ℚ) then .wet
    else .dry

/-- `is_safe` exactly as claim C1 words it: every safety flag true after the
ignore-overrides AND no condition unknown.  Evaluated on the reading
returned by `get_safe_reading` (whose flag fields hold the pre-override
flags, as in the source). -/
def is_safe_claimC1 (ig : List String) (r : Reading) : Bool :=
  ((r.cloud_safe || decide ("cloud" ∈ ig)) &&
   (r.wind_safe || decide ("wind" ∈ ig)) &&
   (r.rain_safe || decide ("rain" ∈ ig))) &&
  !(decide (r.cloud_condition = .unknown) || decide (r.wind_condition = .unknown) ||
    decide (r.rain_condition = .unknown))

/-- The amended `is_safe` law: the conjunction of the three safety flags
after the ignore-overrides, with no separate unknown conjunct (an unknown
condition makes its own flag false, so it only blocks safety when its domain
is not ignored). -/
def is_safe_amended (ig : List String) (r : Reading) : Bool :=
  (r.cloud_safe || decide ("cloud" ∈ ig)) &&
  (r.wind_safe || decide ("wind" ∈ ig)) &&
  (r.rain_safe || decide ("rain" ∈ ig))

/-- The safety-combining logic of `get_safe_reading`, isolated over arbitrary
condition values, equals the conjunction of the overridden flags. -/
lemma safety_combine (ig : List String) (cc : CloudCond) (wc : WindCond) (rc : RainCond) :
    (let cloud_safe : Bool := decide (cc = .clear)
     let wind_safe : Bool := decide (wc = .calm)
     let rain_safe : Bool := decide (rc = .dry)
     let is_safe0 : Bool :=
       if cc = .unknown ∨ wc = .unknown ∨ rc = .unknown then false
       else cloud_safe && wind_safe && rain_safe
     if ig = [] then is_safe0
     else
       let temp_cloud_safe := if "cloud" ∈ ig then true else cloud_safe
       let temp_wind_safe := if "wind" ∈ ig then true else wind_safe
       let temp_rain_safe := if "rain" ∈ ig then true else rain_safe
       if is_safe0 then true
       else temp_cloud_safe && temp_wind_safe && temp_rain_safe) =
    ((decide (cc = .clear) || decide ("cloud" ∈ ig)) &&
     (decide (wc = .calm) || decide ("wind" ∈ ig)) &&
     (decide (rc = .dry) || decide ("rain" ∈ ig))) := by
  by_cases hig : ig = []
  · subst hig
    simp only [List.not_mem_nil, decide_False, Bool.or_false, if_pos rfl]
    cases cc <;> cases wc <;> cases rc <;> decide
  · simp only [if_neg hig]
    by_cases h1 : "cloud" ∈ ig <;> by_cases h2 : "wind" ∈ ig <;> by_cases h3 : "rain" ∈ ig <;>
      simp only [h1, h2, h3, decide_True, decide_False, if_true, if_false] <;>
      cases cc <;> cases wc <;> cases rc <;> decide

/-- Concrete reading used to refute claim C1 as stated: clear sky, dry rain
sensor, but no wind-speed value (so the wind condition is unknown). -/
def c1Reading : Reading :=
  { timestamp := "t0"
    sky_temp := some (-20)
    ambient_temp := some 20
    wind_speed := none
    rain_frequency := some 2600 }

/-- C1 counterexample: with default thresholds and `ignore_unsafe = [wind]`,
`get_safe_reading` returns `is_safe = true` for a reading whose wind condition
is unknown, while the claim's formula demands `is_safe = false` whenever any
condition is unknown. -/
theorem c1_is_safe_claim_false :
    (get_safe_reading {} ["wind"] c1Reading).is_safe = true ∧
    (get_safe_reading {} ["wind"] c1Reading).wind_condition = .unknown ∧
    is_safe_claimC1 ["wind"] (get_safe_reading {} ["wind"] c1Reading) = false := by
  refine ⟨?_, ?_, ?_⟩ <;> norm_num [get_safe_reading, c1Reading, is_safe_claimC1]

/-- C1 (amended): for every reading returned by `get_safe_reading`, `is_safe`
is exactly the conjunction of the three safety flags after the
`ignore_unsafe` overrides; an Unknown condition forces its own flag false and
hence forces `is_safe = false` only when its domain is not ignored. -/
theorem c1_is_safe_characterization (th : Thresholds) (ig : List String) (r : Reading) :
    (get_safe_reading th ig r).is_safe = is_safe_amended ig (get_safe_reading th ig r) := by
  simp only [get_safe_reading, is_safe_amended]
  exact safety_combine ig _ _ _

/-- C4: the wind condition computed by `get_safe_reading` is exactly the
claim's chain (missing ⇒ unknown, else the first `≥` threshold from
very_gusty down, else calm); and under strictly increasing thresholds a
wind speed exactly equal to a threshold falls into that threshold's (more
severe) bucket. -/
theorem c4_wind_classification (th : Thresholds) (ig : List String) (r : Reading) :
    (get_safe_reading th ig r).wind_condition = wind_condition_claim th r.wind_speed ∧
    (th.windy < th.very_windy → th.very_windy < th.gusty → th.gusty < th.very_gusty →
      (wind_condition_claim th (some th.very_gusty) = .very_gusty ∧
       wind_condition_claim th (some th.gusty) = .gusty ∧
       wind_condition_claim th (some th.very_windy) = .very_windy ∧
       wind_condition_claim th (some th.windy) = .windy)) := by
  constructor
  · cases h : r.wind_speed <;> simp [get_safe_reading, wind_condition_claim, h]
  · intro h1 h2 h3
    refine ⟨?_, ?_, ?_, ?_⟩ <;>
      · simp only [wind_condition_claim]
        split_ifs <;> first | rfl | (exfalso; linarith)

/-- C4 witness at the default thresholds (50 < 75 < 100 < 125). -/
theorem c4_wind_classification_witness :
    (get_safe_reading {} [] ({} : Reading)).wind_condition =
      wind_condition_claim {} ({} : Reading).wind_speed ∧
    wind_condition_claim {} (some 100) = .gusty := by
  have h := c4_wind_classification {} [] {}
  exact ⟨h.1, ((h.2 (by norm_num) (by norm_num) (by norm_num)).2.1 :)⟩

/-- C5: the rain condition computed by `get_safe_reading` is exactly the
claim's chain (missing ⇒ unknown, `rf ≤ rainy` ⇒ rainy, else `rf ≤ wet` ⇒
wet, else dry); a rain frequency exactly equal to `rainy` is Rainy, and
exactly equal to `wet` is Wet whenever `rainy < wet` (as in the defaults). -/
theorem c5_rain_classification (th : Thresholds) (ig : List String) (r : Reading) :
    (get_safe_reading th ig r).rain_condition = rain_condition_claim th r.rain_frequency ∧
    rain_condition_claim th (some (th.rainy : ℚ)) = .rainy ∧
    ((th.rainy : ℚ) < (th.wet : ℚ) → rain_condition_claim th (some (th.wet : ℚ)) = .wet) := by
  refine ⟨?_, ?_, ?_⟩
  · cases h : r.rain_frequency <;> simp [get_safe_reading, rain_condition_claim, h]
  · simp [rain_condition_claim]
  · intro h1
    simp only [rain_condition_claim]
    rw [if_neg (by linarith), if_pos le_rfl]

/-- C5 witness at the default thresholds (rainy = 1800 < wet = 2200). -/
theorem c5_rain_classification_witness :
    (get_safe_reading {} [] ({} : Reading)).rain_condition =
      rain_condition_claim {} ({} : Reading).rain_frequency ∧
    rain_condition_claim {} (some ((1800 : ℤ) : ℚ)) = .rainy ∧
    rain_condition_claim {} (some ((2200 : ℤ) : ℚ)) = .wet := by
  have h := c5_rain_classification {} [] {}
  exact ⟨h.1, h.2.1, h.2.2 (by norm_num)⟩

/-- Python `int()` on a float: truncation toward zero. -/
def pyInt (q : ℚ) : ℤ :=
  if 0 ≤ q then ⌊q⌋ else ⌈q⌉

/-- Python `round(x)` (banker's rounding, half to even).  Ties that arise
from inexact binary floats are outside the model; no property below depends
on tie behavior. -/
def pyRound (q : ℚ) : ℤ :=
  if q - ⌊q⌋ < 1/2 then ⌊q⌋
  else if 1/2 < q - ⌊q⌋ then ⌊q⌋ + 1
  else if ⌊q⌋ % 2 = 0 then ⌊q⌋ else ⌊q⌋ + 1

/-- Python `round(x, 2)`. -/
def round2 (q : ℚ) : ℚ :=
  (pyRound (q * 100) : ℚ) / 100

/-- The 4-digit command parameter of `CloudSensor.set_pwm`:
`percent_val = min(100, max(0, int(percent)))` then
`int(percent_val * 1023 / 100)`.  Both operands of the final division are
nonnegative, so Lean's Euclidean `/` on `ℤ` agrees with Python's
float-divide-then-truncate (the quotient `pv*1023/100` hits an integer only
at pv = 0 and pv = 100, where the float division is exact). -/
def set_pwm_param (percent : ℚ) : ℤ :=
  let percent_val : ℤ := min 100 (max 0 (pyInt percent))
  percent_val * 1023 / 100

/-- ASCII digit for 0 ≤ d ≤ 9. -/
def digitChar (d : ℕ) : Char :=
  Char.ofNat (48 + d)

/-- Python `f'{x:04d}'` for 0 ≤ x ≤ 9999 (the only range `set_pwm` produces,
proved below): the four decimal digits with leading zeros. -/
def format04 (x : ℤ) : String :=
  let n := x.toNat
  String.mk [digitChar (n / 1000 % 10), digitChar (n / 100 % 10),
             digitChar (n / 10 % 10), digitChar (n % 10)]

/-- The full wire bytes written by `set_pwm`:
`f'{cmd.value}{cmd_params}{cmd_delim}'` = `P` + 4-digit parameter + `!`. -/
def set_pwm_wire (percent : ℚ) : String :=
  "P" ++ format04 (set_pwm_param percent) ++ "!"

/-- The percent decoded by `CloudSensor.get_pwm` from the raw device value:
`round(val / 1023 * 100, 2)`. -/
def get_pwm_value (raw : ℤ) : ℚ :=
  round2 ((raw : ℚ) / 1023 * 100)

lemma set_pwm_param_50 : set_pwm_param 50 = 511 := by
  unfold set_pwm_param pyInt
  rw [if_pos (by norm_num : (0:ℚ) ≤ 50)]
  norm_num

lemma get_pwm_value_511 : get_pwm_value 511 = 4995 / 100 := by
  have hq : ((511 : ℤ) : ℚ) / 1023 * 100 * 100 = 5110000 / 1023 := by norm_num
  have hf : (⌊(5110000 / 1023 : ℚ)⌋ : ℤ) = 4995 := by norm_num [Int.floor_eq_iff]
  unfold get_pwm_value round2 pyRound
  rw [hq, hf]
  norm_num

/-- C6 counterexample: `set_pwm(50)` writes `P0511!` on the wire, not
`P0512!` as the claim states — the parameter is `int(50 * 1023 / 100)` =
`int(511.5)` = 511 (truncation, not rounding). -/
theorem c6_wire_counterexample :
    set_pwm_wire 50 = "P0511!" ∧ set_pwm_wire 50 ≠ "P0512!" := by
  have h : set_pwm_wire 50 = "P0511!" := by
    unfold set_pwm_wire
    rw [set_pwm_param_50]
    rfl
  exact ⟨h, by rw [h]; decide⟩

/-- C6 (amended): `set_pwm(50)` writes the wire bytes `P0511!` (parameter
`int(50·1023/100) = 511`), and decoding the echoed raw value 511 by
`round(raw / 1023 * 100, 2)` gives 49.95, which recovers 50.0 within ±0.1. -/
theorem c6_pwm_roundtrip :
    set_pwm_wire 50 = "P0511!" ∧
    get_pwm_value 511 = 4995 / 100 ∧
    |get_pwm_value 511 - 50| ≤ 1/10 := by
  refine ⟨?_, get_pwm_value_511, ?_⟩
  · unfold set_pwm_wire
    rw [set_pwm_param_50]
    rfl
  · rw [get_pwm_value_511]
    norm_num [abs_le]

/-- C9: `set_pwm` clamps its input into [0, 100] before encoding, so the
4-digit wire parameter is always between 0 and 1023 (and is rendered with
exactly four digits); inputs below 0 encode as `P0000!` and inputs above 100
encode parameter 1023. -/
theorem c9_set_pwm_clamped (percent : ℚ) :
    0 ≤ set_pwm_param percent ∧ set_pwm_param percent ≤ 1023 ∧
    (format04 (set_pwm_param percent)).length = 4 ∧
    (percent < 0 → set_pwm_wire percent = "P0000!") ∧
    (100 < percent → set_pwm_param percent = 1023) := by
  have heq : set_pwm_param percent = (min 100 (max 0 (pyInt percent))) * 1023 / 100 := rfl
  have hlo : (0:ℤ) ≤ min 100 (max 0 (pyInt percent)) :=
    le_min (by norm_num) (le_max_left _ _)
  have hhi : min 100 (max 0 (pyInt percent)) ≤ 100 := min_le_left _ _
  refine ⟨?_, ?_, ?_, ?_, ?_⟩
  · rw [heq]
    omega
  · rw [heq]
    omega
  · simp [format04, String.length]
  · intro hneg
    have h1 : pyInt percent ≤ 0 := by
      unfold pyInt
      rw [if_neg (not_le.mpr hneg)]
      exact Int.ceil_le.mpr (by exact_mod_cast hneg.le)
    have h2 : set_pwm_param percent = 0 := by
      rw [heq, max_eq_left h1, min_eq_right (by norm_num : (0:ℤ) ≤ 100)]
      decide
    unfold set_pwm_wire
    rw [h2]
    rfl
  · intro hbig
    have h1 : (100:ℤ) ≤ pyInt percent := by
      unfold pyInt
      rw [if_pos (by linarith : (0:ℚ) ≤ percent)]
      exact Int.le_floor.mpr (by exact_mod_cast hbig.le)
    rw [heq, max_eq_right (le_trans (by norm_num) h1), min_eq_left h1]
    decide

/-- C9 witness: a negative input encodes as `P0000!` and an input above 100
encodes parameter 1023. -/
theorem c9_set_pwm_clamped_witness :
    set_pwm_wire (-3) = "P0000!" ∧ set_pwm_param 150 = 1023 :=
  ⟨(c9_set_pwm_clamped (-3)).2.2.2.1 (by norm_num),
   (c9_set_pwm_clamped 150).2.2.2.2 (by norm_num)⟩

/-- The 14-character handshake block content
`chr(0x11) + ' ' * 12 + '0'` (weather.py `handshake_block_content`). -/
def handshake_block_content : List Char :=
  '\x11' :: List.replicate 12 ' ' ++ ['0']

/-- The full 15-byte handshake terminator `b'!' + handshake_block_content`
(`full_handshake_bytes` in `CloudSensor.read`). -/
def full_handshake : List Char :=
  '!' :: handshake_block_content

/-- The block-splitting loop of `CloudSensor.read` (weather.py 1396-1409):
take successive 15-byte blocks from the front of the data; a block must
start with `!` and contributes its remaining 14 bytes; a malformed block or
a short remainder ends the loop silently (only a verbose warning). -/
def parse_blocks (data : List Char) : List (List Char) :=
  if _h : 15 ≤ data.length then
    if data.head? = some '!' then
      (data.take 15).drop 1 :: parse_blocks (data.drop 15)
    else []
  else []
termination_by data.length
decreasing_by
  simp only [List.length_drop]
  omega

/-- Decoding part of `CloudSensor.read` (weather.py 1372-1411) applied to the
decoded byte buffer: the communication-error sentinel (`none`) is returned
iff the buffer is empty or does not end with the 15-byte handshake;
otherwise the final handshake is stripped and the prefix is parsed greedily
into `!`-blocks. -/
def read_decode (buf : List Char) : Option (List (List Char)) :=
  if buf ≠ [] ∧ full_handshake.isSuffixOf buf = true then
    some (parse_blocks (buf.take (buf.length - 15)))
  else none

/-- The well-formed wire image of a list of 14-byte information blocks:
each block prefixed by `!`, concatenated (the handshake is appended
separately). -/
def encode_blocks (blocks : List (List Char)) : List Char :=
  blocks.foldr (fun b acc => '!' :: b ++ acc) []

lemma parse_blocks_encode (blocks : List (List Char))
    (h : ∀ b ∈ blocks, b.length = 14) :
    parse_blocks (encode_blocks blocks) = blocks := by
  induction blocks with
  | nil =>
    rw [parse_blocks]
    simp [encode_blocks]
  | cons b bs ih =>
    have hb : b.length = 14 := h b (List.mem_cons_self _ _)
    have hbs : ∀ x ∈ bs, x.length = 14 := fun x hx => h x (List.mem_cons_of_mem _ hx)
    have hassoc : encode_blocks (b :: bs) = ('!' :: b) ++ encode_blocks bs := by
      simp [encode_blocks]
    have hlen : ('!' :: b).length = 15 := by simp [hb]
    rw [hassoc, parse_blocks]
    rw [dif_pos (by simp [hb])]
    rw [if_pos (by cases b <;> rfl)]
    rw [show (15:ℕ) = ('!' :: b).length from hlen.symm, List.take_left, List.drop_left]
    simp [ih hbs]

/-- C7 counterexample: a 16-byte buffer (one junk byte followed by the
handshake) has length not a multiple of 15, yet `read` does not reject it as
a communication error — it returns an empty list of information blocks. -/
theorem c7_read_counterexample :
    read_decode ('x' :: full_handshake) = some [] ∧
    ('x' :: full_handshake).length % 15 ≠ 0 := by
  constructor
  · rw [read_decode, if_pos]
    · rw [show ('x' :: full_handshake).length - 15 = 1 by rfl,
          show ('x' :: full_handshake).take 1 = ['x'] by rfl, parse_blocks]
      simp
    · exact ⟨by simp [full_handshake], by
        rw [List.isSuffixOf_iff_suffix]
        exact List.suffix_cons 'x' full_handshake⟩
  · decide

/-- C7 (amended): `read` rejects (communication-error sentinel, no
information blocks) exactly the buffers that are empty or whose final 15
bytes are not the handshake; a buffer that does end with the handshake is
never rejected — its prefix is parsed greedily into leading `!`-blocks and
any trailing remainder (e.g. from a length that is not a multiple of 15) is
dropped silently; a well-formed buffer yields its information blocks in
order. -/
theorem c7_read_decode (buf : List Char) (blocks : List (List Char)) :
    (¬ (buf ≠ [] ∧ full_handshake.isSuffixOf buf = true) → read_decode buf = none) ∧
    ((buf ≠ [] ∧ full_handshake.isSuffixOf buf = true) → (read_decode buf).isSome = true) ∧
    ((∀ b ∈ blocks, b.length = 14) →
      read_decode (encode_blocks blocks ++ full_handshake) = some blocks) := by
  refine ⟨fun h => by rw [read_decode, if_neg h], fun h => by rw [read_decode, if_pos h]; rfl, ?_⟩
  intro hb
  have hsuf : full_handshake.isSuffixOf (encode_blocks blocks ++ full_handshake) = true := by
    rw [List.isSuffixOf_iff_suffix]
    exact List.suffix_append _ _
  have hne : encode_blocks blocks ++ full_handshake ≠ [] := by
    simp [full_handshake]
  rw [read_decode, if_pos ⟨hne, hsuf⟩]
  have hlen : (encode_blocks blocks ++ full_handshake).length - 15 =
      (encode_blocks blocks).length := by
    simp [full_handshake, handshake_block_content]
  rw [hlen, List.take_left, parse_blocks_encode blocks hb]

/-- C7 witness: the rejection branch at a buffer of three junk bytes, the
acceptance branch at the handshake alone, and the well-formed branch at one
concrete information block. -/
theorem c7_read_decode_witness :
    read_decode ['x', 'y', 'z'] = none ∧
    read_decode (encode_blocks [List.replicate 14 'K'] ++ full_handshake) =
      some [List.replicate 14 'K'] := by
  constructor
  · exact (c7_read_decode ['x', 'y', 'z'] []).1 (by decide)
  · exact (c7_read_decode (encode_blocks [List.replicate 14 'K'] ++ full_handshake)
      [List.replicate 14 'K']).2.2 (by decide)

/-- Outcome of one `query` call as seen by the calling code: the
communication-error sentinel, a `None` result, or a parsed value. -/
inductive QRes (α : Type) where
  | err
  | missing
  | ok (v : α)
deriving DecidableEq

/-- The mutable `CloudSensor` state the claims are about: connection status,
last error message, the readings deque, whether the serial port is open, and
the identity fields written by `connect`. -/
structure SensorState where
  status : ConnectionStatus := .initializing
  lastError : Option String := none
  readings : List Reading := []
  portOpen : Bool := false
  name : String := "CloudWatcher"
  firmware : Option String := none
  serial_number : Option String := none
  has_anemometer : Bool := false
  has_heater : Bool := false
deriving DecidableEq

/-- The configuration fields consumed by `connect` / `get_reading`.
`ignored` embeds the `ignore_unsafe` setting (a `None` value and an empty
list behave identically in the source's truthiness test, so a plain list
suffices). -/
structure WeatherConfig where
  num_readings : ℕ := 10
  thresholds : Thresholds := {}
  ignored : List String := []
  have_heater : Bool := false
  elevation : ℚ := 100
deriving DecidableEq

/-- Error message recorded when the port is found closed inside `query`
(message text is not modelled, only its presence). -/
def portClosedMsg : String := "query: serial port not open"

/-- Error message recorded when `read` gets no handshake-terminated response
(message text is not modelled, only its presence). -/
def readErrMsg : String := "response empty or not terminated by handshake"

/-- State effect of one `query` call (weather.py 1151-1253 together with the
failure handling of `read`, 1295-1422): if the port is not open, `query`
returns the sentinel and degrades the status (Connected → Disconnected,
otherwise → Error except while AttemptingReconnect); a communication error
(no handshake-terminated response) sets status Error and the error message
when the previous status was Connected or AttemptingReconnect; any other
outcome passes through with no state change. -/
def queryStep {α : Type} (s : SensorState) (q : QRes α) : SensorState × QRes α :=
  if s.portOpen = false then
    ({ s with
        status :=
          if s.status = .connected then .disconnected
          else if s.status ≠ .attemptingReconnect then .error
          else s.status
        lastError := some portClosedMsg }, .err)
  else
    match q with
    | .err =>
      if s.status = .connected ∨ s.status = .attemptingReconnect then
        ({ s with status := .error, lastError := some readErrMsg }, .err)
      else (s, .err)
    | .missing => (s, .missing)
    | .ok v => (s, .ok v)

/-- A single-value getter such as `get_sky_temperature` / `get_wind_speed` /
`get_pwm`: an optional guard (wind speed requires `has_anemometer`, pwm
requires `has_heater`; when the guard fails the device is not queried and the
result is `None`), then `query` followed by the getter's numeric
conversion of a non-None value. -/
def getter (enabled : Bool) (conv : ℚ → ℚ) (s : SensorState) (q : QRes ℚ) :
    SensorState × QRes ℚ :=
  if enabled = false then (s, .missing)
  else
    match queryStep s q with
    | (s', .ok v) => (s', .ok (conv v))
    | (s', .err) => (s', .err)
    | (s', .missing) => (s', .missing)

/-- `avg_readings` with `avg_times = 1` (the value used by the periodic
caller), fused with `process_value`: if a communication error already
occurred this cycle the device is not touched and the sentinel propagates;
otherwise one sample is taken; an error sets the cycle flag; a non-None
value is rounded to two decimals. -/
def avg1 (flag : Bool) (s : SensorState)
    (step : SensorState → SensorState × QRes ℚ) : Bool × SensorState × Option ℚ :=
  if flag then (true, s, none)
  else
    match step s with
    | (s', .err) => (true, s', none)
    | (s', .missing) => (false, s', none)
    | (s', .ok v) => (false, s', some (round2 v))

/-- A direct (unaveraged) read fused with `process_value`, as used for the
switch status and the pwm value: the device is queried even when the cycle
flag is already set; an error outcome sets the flag; values pass through
unrounded. -/
def direct {α : Type} (flag : Bool) (s : SensorState)
    (step : SensorState → SensorState × QRes α) : Bool × SensorState × Option α :=
  match step s with
  | (s', .err) => (true, s', none)
  | (s', .missing) => (flag, s', none)
  | (s', .ok v) => (flag, s', some v)

/-- Identifiers of the 'C!' values blocks
(`WeatherResponseCodes.GET_VALUES_*`). -/
inductive ValuesKey where
  | ambient
  | ldrVoltage
  | sensorTemp
  | zenerVoltage
  | lightSensor
deriving DecidableEq

/-- The dictionary parsed by `get_rain_sensor_values`: a key may be absent
(`none`) or present with either a parsed integer or `None` recorded on an
integer-parse failure (`some none`). -/
def ValuesDict : Type := ValuesKey → Option (Option ℤ)

/-- `get_rain_sensor_values` (weather.py 932-983): the sentinel propagates;
a `None`/empty `query` result yields the empty dictionary (so the function
never returns `None`, making the `is None` branch of its caller dead). -/
def get_rain_sensor_values (s : SensorState) (q : QRes ValuesDict) :
    SensorState × QRes ValuesDict :=
  match queryStep s q with
  | (s', .err) => (s', .err)
  | (s', .missing) => (s', .ok (fun _ => none))
  | (s', .ok d) => (s', .ok d)

/-- `get_values_raw` (weather.py 878-910): the integer stored for the key,
or the sentinel -99 when the key is absent, its value is `None`, or the
value failed integer parsing. -/
def get_values_raw (d : ValuesDict) (key : ValuesKey) : ℤ :=
  match d key with
  | some (some v) => v
  | _ => -99

/-- The dew-point block of `get_reading` (weather.py 457-486).  Outer `none`
means an exception escapes `get_reading`: when ambient temperature and
humidity are both present and RH ≤ 0 or RH > 150, the source assigns to the
undefined local name `reading` and the resulting NameError is not in the
`except` tuple.  A ZeroDivisionError from T = -243.04 IS caught and yields an
absent dew point.  The Magnus float value is carried symbolically; the
transcendental coincidence `alpha = A` (a second potential zero division) is
not representable and not modelled. -/
def dew_point_step (ambient humidity : Option ℚ) : Option (Option MagnusDew) :=
  match ambient, humidity with
  | some T, some RH =>
    if RH ≤ 0 ∨ RH > 150 then none
    else if (243.04 : ℚ) + T = 0 then some none
    else some (some ⟨T, min RH 100⟩)
  | _, _ => some none

/-- `_calculate_mpsas` (weather.py 719-757): `None` when the raw period is
missing or ≤ 0, the ambient temperature is missing, or the log argument is
non-positive (unreachable once the period is positive); otherwise the
symbolic MPSAS value. -/
def calculate_mpsas (raw_period : Option ℤ) (ambient : Option ℚ) : Option SkyQVal :=
  match raw_period, ambient with
  | some p, some t =>
    if p ≤ 0 then none
    else if (250000 : ℚ) / (p : ℚ) ≤ 0 then none
    else some ⟨p, t⟩
  | _, _ => none

/-- `get_pres_pressure` (weather.py 802-876) as called from `get_reading`
with both pressure and its temperature present: the near-zero-denominator
guard (`< 1e-9`) and the non-positive-base guard return the absolute
pressure unchanged; otherwise the symbolic sea-level value (the float power
`base ** (-5.275)` and the final 2-decimal round are inside the symbolic
`seaLevel`). -/
def get_pres_pressure (elevation : ℚ) (p t : ℚ) : PresResult :=
  let denom := t + (0.0065 : ℚ) * elevation + (273.15 : ℚ)
  if |denom| < (1 / 1000000000 : ℚ) then .fallback p
  else
    let base := 1 - (0.0065 : ℚ) * elevation / denom
    if base ≤ 0 then .fallback p
    else .seaLevel p base

/-- Device nondeterminism for one `get_reading` cycle: one outcome per
possible device query, in the order the source issues them (the C! values
command, then the single reads, then the ambient-IR fallback that is only
consulted when the RH sensor temperature came back `None`). -/
structure ReadingEnv where
  values : QRes ValuesDict
  sky : QRes ℚ
  wind : QRes ℚ
  rain_freq : QRes ℚ
  humidity : QRes ℚ
  pressure : QRes ℚ
  rh_temp : QRes ℚ
  press_temp : QRes ℚ
  switch : QRes SwitchState
  pwm : QRes ℚ
  ambient_ir : QRes ℚ

/-- Result of `get_reading`: an uncaught exception escaping the function, a
`None` return ("no reading"), or a successful reading. -/
inductive ReadingOutcome where
  | exn
  | noReading
  | reading (r : Reading)
deriving DecidableEq

/-- `deque(maxlen = n).append`: drop from the left when full. -/
def ring_push (n : ℕ) (l : List Reading) (r : Reading) : List Reading :=
  (l ++ [r]).drop ((l ++ [r]).length - n)

/-- The assembly tail of `get_reading` (weather.py 413-590) once all
sub-reads have completed without a communication error: derived values,
safety classification, the deque push, and the Connected/cleared-error state
update.  `amb` is the chosen ambient temperature, which the source also
stores back into `RH_sensor_temp` (in the normal path they are the same RH
value; in the IR-fallback path both become the IR reading). -/
def finish_reading (cfg : WeatherConfig) (now : String) (c_data : ValuesDict)
    (sky wind rain hum pres ptemp : Option ℚ) (sw : Option SwitchState)
    (pwmv : Option ℚ) (amb : Option ℚ) (sB : SensorState) :
    ReadingOutcome × SensorState :=
  let pres_pressure : Option PresResult :=
    match pres, ptemp with
    | some p, some t => some (get_pres_pressure cfg.elevation p t)
    | _, _ => pres.map PresResult.fallback
  match dew_point_step amb hum with
  | none => (.exn, sB)
  | some dew =>
    let lraw := get_values_raw c_data .lightSensor
    let raw_period : Option ℤ := if lraw = -99 then none else some lraw
    let reading0 : Reading :=
      { timestamp := now
        sky_temp := sky
        wind_speed := wind
        rain_frequency := rain
        humidity := hum
        pressure := pres
        RH_sensor_temp := amb
        pressure_temp := ptemp
        ambient_temp := amb
        switch := sw
        pwm := pwmv
        light_sensor_period_raw := lraw
        ambient_temp_ntc_raw := get_values_raw c_data .ambient
        ambient_ldr_voltage_raw := get_values_raw c_data .ldrVoltage
        zener_voltage_raw := get_values_raw c_data .zenerVoltage
        rain_sensor_temp_ntc_raw := get_values_raw c_data .sensorTemp
        pres_pressure := pres_pressure
        dew_point := dew
        sky_quality_mpsas := calculate_mpsas raw_period amb }
    let reading1 := get_safe_reading cfg.thresholds cfg.ignored reading0
    (.reading reading1,
      { sB with
          readings := ring_push cfg.num_readings sB.readings reading1
          status := .connected
          lastError := none })

/-- Shallow embedding of `CloudSensor.get_reading` (weather.py 291-590) with
the caller's arguments `units='none'`, `get_errors=False`, `avg_times=1`.
The sub-reads are issued in source order; the cycle flag
(`communication_error_occured_this_cycle`) suppresses further averaged
reads after a communication error, while the switch and pwm reads are
issued regardless; the reading is assembled, safety-classified, and appended
to the deque only on the all-success path, where the status is (re)set to
Connected and the error message cleared. -/
def get_reading (cfg : WeatherConfig) (env : ReadingEnv) (now : String)
    (s0 : SensorState) : ReadingOutcome × SensorState :=
  if s0.status ≠ .connected then (.noReading, s0)
  else
    match get_rain_sensor_values s0 env.values with
    | (s1, .err) => (.noReading, s1)
    | (s1, .missing) => (.noReading, s1)
    | (s1, .ok c_data) =>
      let r1 := avg1 false s1 (getter true (fun v => v / 100) · env.sky)
      let r2 := avg1 r1.1 r1.2.1
        (getter s0.has_anemometer
          (fun v => if v = 0 then 0 else round2 (v * (0.84 : ℚ) + 3)) · env.wind)
      let r3 := avg1 r2.1 r2.2.1 (getter true (fun v => v) · env.rain_freq)
      let r4 := avg1 r3.1 r3.2.1
        (getter true (fun v => round2 (v * 125 / 65536 - 6)) · env.humidity)
      let r5 := avg1 r4.1 r4.2.1 (getter true (fun v => round2 (v / 16)) · env.pressure)
      let r6 := avg1 r5.1 r5.2.1
        (getter true (fun v => round2 (v * (172.72 : ℚ) / 65536 - (46.85 : ℚ))) · env.rh_temp)
      let r7 := avg1 r6.1 r6.2.1
        (getter true (fun v => round2 (v / 100)) · env.press_temp)
      let r8 := direct r7.1 r7.2.1 (fun s => queryStep s env.switch)
      let r9 := direct r8.1 r8.2.1
        (getter s0.has_heater (fun v => round2 (v / 1023 * 100)) · env.pwm)
      if r9.1 then (.noReading, r9.2.1)
      else
        match r6.2.2 with
        | some v =>
          finish_reading cfg now c_data r1.2.2 r2.2.2 r3.2.2 r4.2.2 r5.2.2
            r7.2.2 r8.2.2 r9.2.2 (some v) r9.2.1
        | none =>
          let rA := avg1 false r9.2.1 (getter true (fun v => v / 100) · env.ambient_ir)
          if rA.1 then (.noReading, rA.2.1)
          else
            finish_reading cfg now c_data r1.2.2 r2.2.2 r3.2.2 r4.2.2 r5.2.2
              r7.2.2 r8.2.2 r9.2.2 rA.2.2 rA.2.1

/-- The state after the first communication error of a cycle that started
Connected with an open port: status Error, error message recorded, all other
fields (in particular the readings deque) untouched. -/
def errState (s : SensorState) : SensorState :=
  { s with status := .error, lastError := some readErrMsg }

/-- Some sub-read actually issued during the cycle returns the
communication-error sentinel: the disjuncts follow the issue order of
`get_reading`; the wind / pwm reads are only issued when the corresponding
capability flag is set, and the ambient-IR fallback only when the RH
temperature read returned `None`. -/
def cycle_comm_err (env : ReadingEnv) (s : SensorState) : Prop :=
  env.values = .err ∨ env.sky = .err ∨
  (s.has_anemometer = true ∧ env.wind = .err) ∨
  env.rain_freq = .err ∨ env.humidity = .err ∨ env.pressure = .err ∨
  env.rh_temp = .err ∨ env.press_temp = .err ∨ env.switch = .err ∨
  (s.has_heater = true ∧ env.pwm = .err) ∨
  (env.rh_temp = .missing ∧ env.ambient_ir = .err)

section RunLemmas

variable {α : Type} {s : SensorState}

lemma queryStep_err_conn (hp : s.portOpen = true) (hs : s.status = .connected) :
    queryStep s (.err : QRes α) = (errState s, .err) := by
  simp [queryStep, hp, hs, errState]

lemma queryStep_err_error (hp : s.portOpen = true) (hst : s.status = .error) :
    queryStep s (.err : QRes α) = (s, .err) := by
  simp [queryStep, hp, hst]

lemma queryStep_missing (hp : s.portOpen = true) :
    queryStep s (.missing : QRes α) = (s, .missing) := by
  simp [queryStep, hp]

lemma queryStep_ok (hp : s.portOpen = true) (v : α) :
    queryStep s (.ok v) = (s, .ok v) := by
  simp [queryStep, hp]

lemma avg1_skip (s : SensorState) (step : SensorState → SensorState × QRes ℚ) :
    avg1 true s step = (true, s, none) := rfl

lemma avg1_getter_err {conv : ℚ → ℚ} (hp : s.portOpen = true) (hs : s.status = .connected) :
    avg1 false s (getter true conv · .err) = (true, errState s, none) := by
  simp [avg1, getter, queryStep_err_conn hp hs]

lemma avg1_getter_safe {en : Bool} {conv : ℚ → ℚ} {q : QRes ℚ} (hp : s.portOpen = true)
    (hq : ¬(en = true ∧ q = .err)) :
    (avg1 false s (getter en conv · q)).1 = false ∧
    (avg1 false s (getter en conv · q)).2.1 = s := by
  cases en with
  | false => simp [avg1, getter]
  | true =>
    cases q with
    | err => exact absurd ⟨rfl, rfl⟩ hq
    | missing => simp [avg1, getter, queryStep_missing hp]
    | ok v => simp [avg1, getter, queryStep_ok hp]

lemma avg1_getter_noerr {conv : ℚ → ℚ} {q : QRes ℚ} (hp : s.portOpen = true)
    (hq : q ≠ .err) :
    (avg1 false s (getter true conv · q)).1 = false ∧
    (avg1 false s (getter true conv · q)).2.1 = s :=
  avg1_getter_safe hp (fun h => hq h.2)

lemma avg1_getter_missing {conv : ℚ → ℚ} (hp : s.portOpen = true) :
    avg1 false s (getter true conv · .missing) = (false, s, none) := by
  simp [avg1, getter, queryStep_missing hp]

lemma avg1_getter_ok {conv : ℚ → ℚ} (hp : s.portOpen = true) (v : ℚ) :
    avg1 false s (getter true conv · (.ok v)) = (false, s, some (round2 (conv v))) := by
  simp [avg1, getter, queryStep_ok hp]

lemma direct_query_err_conn (hp : s.portOpen = true) (hs : s.status = .connected)
    (flag : Bool) :
    direct flag s (fun s => queryStep s (.err : QRes α)) = (true, errState s, none) := by
  simp [direct, queryStep_err_conn hp hs]

lemma direct_query_noerr {q : QRes α} (hp : s.portOpen = true) (hq : q ≠ .err) :
    ∀ flag, (direct flag s (fun s => queryStep s q)).1 = flag ∧
    (direct flag s (fun s => queryStep s q)).2.1 = s := by
  intro flag
  cases q with
  | err => exact absurd rfl hq
  | missing => simp [direct, queryStep_missing hp]
  | ok v => simp [direct, queryStep_ok hp]

lemma direct_query_tripped (hp : s.portOpen = true) (hst : s.status = .error)
    (q : QRes α) :
    (direct true s (fun s => queryStep s q)).1 = true ∧
    (direct true s (fun s => queryStep s q)).2.1 = s := by
  cases q with
  | err => simp [direct, queryStep_err_error hp hst]
  | missing => simp [direct, queryStep_missing hp]
  | ok v => simp [direct, queryStep_ok hp]

lemma direct_getter_err_conn {conv : ℚ → ℚ} (hp : s.portOpen = true)
    (hs : s.status = .connected) (flag : Bool) :
    direct flag s (getter true conv · .err) = (true, errState s, none) := by
  simp [direct, getter, queryStep_err_conn hp hs]

lemma direct_getter_safe {en : Bool} {conv : ℚ → ℚ} {q : QRes ℚ} (hp : s.portOpen = true)
    (hq : ¬(en = true ∧ q = .err)) :
    ∀ flag, (direct flag s (getter en conv · q)).1 = flag ∧
    (direct flag s (getter en conv · q)).2.1 = s := by
  intro flag
  cases en with
  | false => simp [direct, getter]
  | true =>
    cases q with
    | err => exact absurd ⟨rfl, rfl⟩ hq
    | missing => simp [direct, getter, queryStep_missing hp]
    | ok v => simp [direct, getter, queryStep_ok hp]

lemma direct_getter_tripped {en : Bool} {conv : ℚ → ℚ} (hp : s.portOpen = true)
    (hst : s.status = .error) (q : QRes ℚ) :
    (direct true s (getter en conv · q)).1 = true ∧
    (direct true s (getter en conv · q)).2.1 = s := by
  cases en with
  | false => simp [direct, getter]
  | true =>
    cases q with
    | err => simp [direct, getter, queryStep_err_error hp hst]
    | missing => simp [direct, getter, queryStep_missing hp]
    | ok v => simp [direct, getter, queryStep_ok hp]

lemma grsv_err (hp : s.portOpen = true) (hs : s.status = .connected) :
    get_rain_sensor_values s .err = (errState s, .err) := by
  simp [get_rain_sensor_values, queryStep_err_conn hp hs]

lemma grsv_ok (hp : s.portOpen = true) (d : ValuesDict) :
    get_rain_sensor_values s (.ok d) = (s, .ok d) := by
  simp [get_rain_sensor_values, queryStep_ok hp]

lemma grsv_noerr {q : QRes ValuesDict} (hp : s.portOpen = true) (hq : q ≠ .err) :
    ∃ d, get_rain_sensor_values s q = (s, .ok d) := by
  cases q with
  | err => exact absurd rfl hq
  | missing =>
    exact ⟨fun _ => none, by simp [get_rain_sensor_values, queryStep_missing hp]⟩
  | ok d => exact ⟨d, grsv_ok hp d⟩

end RunLemmas

/-- What `finish_reading` guarantees: a published reading is pushed onto the
deque with status Connected and no error message; its five raw-value fields
come from `get_values_raw` on the cached values dictionary; a -99 light
period leaves the sky quality absent; a non-published outcome (the escaping
NameError) leaves the deque untouched. -/
lemma finish_conclusions (cfg : WeatherConfig) (now : String) (d : ValuesDict)
    (sky wind rain hum pres ptemp : Option ℚ) (sw : Option SwitchState)
    (pwmv amb : Option ℚ) (sB : SensorState) :
    (∀ r, (finish_reading cfg now d sky wind rain hum pres ptemp sw pwmv amb sB).1 =
        .reading r →
      (finish_reading cfg now d sky wind rain hum pres ptemp sw pwmv amb sB).2 =
        { sB with
            readings := ring_push cfg.num_readings sB.readings r
            status := .connected
            lastError := none } ∧
      (r.light_sensor_period_raw = get_values_raw d .lightSensor ∧
       r.ambient_temp_ntc_raw = get_values_raw d .ambient ∧
       r.ambient_ldr_voltage_raw = get_values_raw d .ldrVoltage ∧
       r.zener_voltage_raw = get_values_raw d .zenerVoltage ∧
       r.rain_sensor_temp_ntc_raw = get_values_raw d .sensorTemp ∧
       (r.light_sensor_period_raw = -99 → r.sky_quality_mpsas = none))) ∧
    ((∀ r, (finish_reading cfg now d sky wind rain hum pres ptemp sw pwmv amb sB).1 ≠
        .reading r) →
      (finish_reading cfg now d sky wind rain hum pres ptemp sw pwmv amb sB).2.readings =
        sB.readings) := by
  cases hdp : dew_point_step amb hum with
  | none =>
    constructor
    · intro r hr
      simp only [finish_reading.eq_def, hdp] at hr
      simp at hr
    · intro _
      simp only [finish_reading.eq_def, hdp]
  | some dew =>
    constructor
    · intro r hr
      simp only [finish_reading.eq_def, hdp] at hr
      simp only [ReadingOutcome.reading.injEq] at hr
      subst hr
      refine ⟨by simp only [finish_reading.eq_def, hdp], rfl, rfl, rfl, rfl, rfl, ?_⟩
      intro hl
      have hl' : get_values_raw d .lightSensor = -99 := hl
      show calculate_mpsas
          (if get_values_raw d .lightSensor = -99 then none
           else some (get_values_raw d .lightSensor)) amb = none
      rw [if_pos hl']
      cases amb <;> rfl
    · intro hne
      have hex : ∃ rr,
          (finish_reading cfg now d sky wind rain hum pres ptemp sw pwmv amb sB).1 =
            .reading rr := by
        simp only [finish_reading.eq_def, hdp]
        exact ⟨_, rfl⟩
      obtain ⟨rr, hrr⟩ := hex
      exact absurd hrr (hne rr)

/-- The conclusions of the master run lemma in the communication-error case,
factored out of its per-stage branches. -/
lemma run_err_conclusions (cfg : WeatherConfig) (env : ReadingEnv) (now : String)
    (s0 : SensorState)
    (heq : get_reading cfg env now s0 = (.noReading, errState s0)) :
    (cycle_comm_err env s0 → get_reading cfg env now s0 = (.noReading, errState s0)) ∧
    (∀ r, (get_reading cfg env now s0).1 = .reading r →
      (get_reading cfg env now s0).2 =
        { s0 with
            readings := ring_push cfg.num_readings s0.readings r
            status := .connected
            lastError := none } ∧
      (∀ d, env.values = .ok d →
        r.light_sensor_period_raw = get_values_raw d .lightSensor ∧
        r.ambient_temp_ntc_raw = get_values_raw d .ambient ∧
        r.ambient_ldr_voltage_raw = get_values_raw d .ldrVoltage ∧
        r.zener_voltage_raw = get_values_raw d .zenerVoltage ∧
        r.rain_sensor_temp_ntc_raw = get_values_raw d .sensorTemp ∧
        (r.light_sensor_period_raw = -99 → r.sky_quality_mpsas = none))) ∧
    ((∀ r, (get_reading cfg env now s0).1 ≠ .reading r) →
      (get_reading cfg env now s0).2.readings = s0.readings) := by
  refine ⟨fun _ => heq, ?_, ?_⟩
  · intro r hr
    rw [heq] at hr
    simp at hr
  · intro _
    rw [heq]
    rfl

/-- Master characterization of one `get_reading` cycle started from a
Connected state with an open serial port: (i) if any issued sub-read returns
the communication-error sentinel the cycle returns "no reading" and the only
state change is status Error plus the recorded error message; (ii) a
published reading is pushed onto the deque with status Connected and error
message cleared, and carries the `get_values_raw` sentinels and the -99 ⇒
absent-sky-quality property; (iii) any non-published outcome leaves the
deque untouched. -/
theorem get_reading_run (cfg : WeatherConfig) (env : ReadingEnv) (now : String)
    (s0 : SensorState) (hs : s0.status = .connected) (hp : s0.portOpen = true) :
    (cycle_comm_err env s0 → get_reading cfg env now s0 = (.noReading, errState s0)) ∧
    (∀ r, (get_reading cfg env now s0).1 = .reading r →
      (get_reading cfg env now s0).2 =
        { s0 with
            readings := ring_push cfg.num_readings s0.readings r
            status := .connected
            lastError := none } ∧
      (∀ d, env.values = .ok d →
        r.light_sensor_period_raw = get_values_raw d .lightSensor ∧
        r.ambient_temp_ntc_raw = get_values_raw d .ambient ∧
        r.ambient_ldr_voltage_raw = get_values_raw d .ldrVoltage ∧
        r.zener_voltage_raw = get_values_raw d .zenerVoltage ∧
        r.rain_sensor_temp_ntc_raw = get_values_raw d .sensorTemp ∧
        (r.light_sensor_period_raw = -99 → r.sky_quality_mpsas = none))) ∧
    ((∀ r, (get_reading cfg env now s0).1 ≠ .reading r) →
      (get_reading cfg env now s0).2.readings = s0.readings) := by
  have hpe : (errState s0).portOpen = true := hp
  have hse : (errState s0).status = .error := rfl
  by_cases hv : env.values = .err
  · exact run_err_conclusions cfg env now s0
      (by simp [get_reading.eq_def, hs, hv, grsv_err hp hs])
  obtain ⟨d, hd⟩ := grsv_noerr hp hv
  by_cases e2 : env.sky = .err
  · exact run_err_conclusions cfg env now s0
      (by simp [get_reading.eq_def, hs, hd, e2, avg1_getter_err hp hs, avg1_skip,
            direct_query_tripped hpe hse, direct_getter_tripped hpe hse])
  by_cases e3 : s0.has_anemometer = true ∧ env.wind = .err
  · exact run_err_conclusions cfg env now s0
      (by simp [get_reading.eq_def, hs, hd, e3.1, e3.2, avg1_getter_noerr hp e2,
            avg1_getter_err hp hs, avg1_skip,
            direct_query_tripped hpe hse, direct_getter_tripped hpe hse])
  by_cases e4 : env.rain_freq = .err
  · exact run_err_conclusions cfg env now s0
      (by simp [get_reading.eq_def, hs, hd, e4, avg1_getter_noerr hp e2,
            avg1_getter_safe hp e3, avg1_getter_err hp hs, avg1_skip,
            direct_query_tripped hpe hse, direct_getter_tripped hpe hse])
  by_cases e5 : env.humidity = .err
  · exact run_err_conclusions cfg env now s0
      (by simp [get_reading.eq_def, hs, hd, e5, avg1_getter_noerr hp e2,
            avg1_getter_safe hp e3, avg1_getter_noerr hp e4,
            avg1_getter_err hp hs, avg1_skip,
            direct_query_tripped hpe hse, direct_getter_tripped hpe hse])
  by_cases e6 : env.pressure = .err
  · exact run_err_conclusions cfg env now s0
      (by simp [get_reading.eq_def, hs, hd, e6, avg1_getter_noerr hp e2,
            avg1_getter_safe hp e3, avg1_getter_noerr hp e4, avg1_getter_noerr hp e5,
            avg1_getter_err hp hs, avg1_skip,
            direct_query_tripped hpe hse, direct_getter_tripped hpe hse])
  by_cases e7 : env.rh_temp = .err
  · exact run_err_conclusions cfg env now s0
      (by simp [get_reading.eq_def, hs, hd, e7, avg1_getter_noerr hp e2,
            avg1_getter_safe hp e3, avg1_getter_noerr hp e4, avg1_getter_noerr hp e5,
            avg1_getter_noerr hp e6, avg1_getter_err hp hs, avg1_skip,
            direct_query_tripped hpe hse, direct_getter_tripped hpe hse])
  by_cases e8 : env.press_temp = .err
  · exact run_err_conclusions cfg env now s0
      (by simp [get_reading.eq_def, hs, hd, e8, avg1_getter_noerr hp e2,
            avg1_getter_safe hp e3, avg1_getter_noerr hp e4, avg1_getter_noerr hp e5,
            avg1_getter_noerr hp e6, avg1_getter_noerr hp e7,
            avg1_getter_err hp hs, avg1_skip,
            direct_query_tripped hpe hse, direct_getter_tripped hpe hse])
  by_cases e9 : env.switch = .err
  · exact run_err_conclusions cfg env now s0
      (by simp [get_reading.eq_def, hs, hd, e9, avg1_getter_noerr hp e2,
            avg1_getter_safe hp e3, avg1_getter_noerr hp e4, avg1_getter_noerr hp e5,
            avg1_getter_noerr hp e6, avg1_getter_noerr hp e7, avg1_getter_noerr hp e8,
            direct_query_err_conn hp hs, direct_getter_tripped hpe hse])
  by_cases e10 : s0.has_heater = true ∧ env.pwm = .err
  · exact run_err_conclusions cfg env now s0
      (by simp [get_reading.eq_def, hs, hd, e10.1, e10.2, avg1_getter_noerr hp e2,
            avg1_getter_safe hp e3, avg1_getter_noerr hp e4, avg1_getter_noerr hp e5,
            avg1_getter_noerr hp e6, avg1_getter_noerr hp e7, avg1_getter_noerr hp e8,
            direct_query_noerr hp e9, direct_getter_err_conn hp hs])
  cases hrh : env.rh_temp with
  | err => exact absurd hrh e7
  | ok v =>
    simp only [get_reading.eq_def, hs, hd, hrh, avg1_getter_noerr hp e2,
      avg1_getter_safe hp e3, avg1_getter_noerr hp e4, avg1_getter_noerr hp e5,
      avg1_getter_noerr hp e6, avg1_getter_ok hp, avg1_getter_noerr hp e8,
      direct_query_noerr hp e9, direct_getter_safe hp e10, ne_eq,
      not_true_eq_false, Bool.false_eq_true, if_false, reduceCtorEq]
    refine ⟨fun herr => ?_, fun r hr => ?_,
      (finish_conclusions cfg now d _ _ _ _ _ _ _ _ _ s0).2⟩
    · rcases herr with h|h|h|h|h|h|h|h|h|h|⟨hm, _⟩
      · exact absurd h hv
      · exact absurd h e2
      · exact absurd h e3
      · exact absurd h e4
      · exact absurd h e5
      · exact absurd h e6
      · exact absurd h e7
      · exact absurd h e8
      · exact absurd h e9
      · exact absurd h e10
      · rw [hrh] at hm
        exact absurd hm (by simp)
    · refine ⟨((finish_conclusions cfg now d _ _ _ _ _ _ _ _ _ s0).1 r hr).1, ?_⟩
      intro d' hvd
      rw [hvd, grsv_ok hp] at hd
      have hdd : d' = d := by
        simp only [Prod.mk.injEq, QRes.ok.injEq, true_and] at hd
        exact hd
      subst hdd
      exact ((finish_conclusions cfg now d' _ _ _ _ _ _ _ _ _ s0).1 r hr).2
  | missing =>
    by_cases e11 : env.ambient_ir = .err
    · exact run_err_conclusions cfg env now s0
        (by simp [get_reading.eq_def, hs, hd, hrh, e11, avg1_getter_noerr hp e2,
              avg1_getter_safe hp e3, avg1_getter_noerr hp e4, avg1_getter_noerr hp e5,
              avg1_getter_noerr hp e6, avg1_getter_missing hp, avg1_getter_noerr hp e8,
              direct_query_noerr hp e9, direct_getter_safe hp e10,
              avg1_getter_err hp hs])
    · simp only [get_reading.eq_def, hs, hd, hrh, avg1_getter_noerr hp e2,
        avg1_getter_safe hp e3, avg1_getter_noerr hp e4, avg1_getter_noerr hp e5,
        avg1_getter_noerr hp e6, avg1_getter_missing hp, avg1_getter_noerr hp e8,
        direct_query_noerr hp e9, direct_getter_safe hp e10, avg1_getter_noerr hp e11,
        ne_eq, not_true_eq_false, Bool.false_eq_true, if_false, reduceCtorEq]
      refine ⟨fun herr => ?_, fun r hr => ?_,
        (finish_conclusions cfg now d _ _ _ _ _ _ _ _ _ s0).2⟩
      · rcases herr with h|h|h|h|h|h|h|h|h|h|⟨_, ha⟩
        · exact absurd h hv
        · exact absurd h e2
        · exact absurd h e3
        · exact absurd h e4
        · exact absurd h e5
        · exact absurd h e6
        · exact absurd h e7
        · exact absurd h e8
        · exact absurd h e9
        · exact absurd h e10
        · exact absurd ha e11
      · refine ⟨((finish_conclusions cfg now d _ _ _ _ _ _ _ _ _ s0).1 r hr).1, ?_⟩
        intro d' hvd
        rw [hvd, grsv_ok hp] at hd
        have hdd : d' = d := by
          simp only [Prod.mk.injEq, QRes.ok.injEq, true_and] at hd
          exact hd
        subst hdd
        exact ((finish_conclusions cfg now d' _ _ _ _ _ _ _ _ _ s0).1 r hr).2

lemma queryStep_port_closed {α : Type} {s : SensorState} (hp : s.portOpen = false)
    (hs : s.status = .connected) (q : QRes α) :
    queryStep s q =
      ({ s with status := .disconnected, lastError := some portClosedMsg }, .err) := by
  simp [queryStep, hp, hs]

/-- `get_reading` invoked while not Connected returns immediately with no
state change (weather.py 307-309). -/
lemma get_reading_not_connected (cfg : WeatherConfig) (env : ReadingEnv) (now : String)
    (s0 : SensorState) (hs : s0.status ≠ .connected) :
    get_reading cfg env now s0 = (.noReading, s0) := by
  simp [get_reading.eq_def, hs]

/-- `get_reading` with the port closed fails at the first (C!) query and
leaves the deque untouched. -/
lemma get_reading_port_closed (cfg : WeatherConfig) (env : ReadingEnv) (now : String)
    (s0 : SensorState) (hs : s0.status = .connected) (hp : s0.portOpen = false) :
    (get_reading cfg env now s0).1 = .noReading ∧
    (get_reading cfg env now s0).2.readings = s0.readings := by
  have hq : get_rain_sensor_values s0 env.values =
      ({ s0 with status := .disconnected, lastError := some portClosedMsg }, .err) := by
    simp [get_rain_sensor_values, queryStep_port_closed hp hs]
  constructor <;> simp [get_reading.eq_def, hs, hq]

/-- For every start state, a `get_reading` cycle either pushes exactly the
published reading or leaves the deque unchanged. -/
lemma get_reading_push_or_unchanged (cfg : WeatherConfig) (env : ReadingEnv)
    (now : String) (s0 : SensorState) :
    (∀ r, (get_reading cfg env now s0).1 = .reading r →
      (get_reading cfg env now s0).2.readings = ring_push cfg.num_readings s0.readings r) ∧
    ((∀ r, (get_reading cfg env now s0).1 ≠ .reading r) →
      (get_reading cfg env now s0).2.readings = s0.readings) := by
  by_cases hs : s0.status = .connected
  · by_cases hp : s0.portOpen = true
    · have h := get_reading_run cfg env now s0 hs hp
      exact ⟨fun r hr => by rw [(h.2.1 r hr).1], h.2.2⟩
    · have h := get_reading_port_closed cfg env now s0 hs (by simpa using hp)
      refine ⟨fun r hr => ?_, fun _ => h.2⟩
      rw [h.1] at hr
      simp at hr
  · have h := get_reading_not_connected cfg env now s0 hs
    refine ⟨fun r hr => ?_, fun _ => by rw [h]⟩
    rw [h] at hr
    simp at hr

lemma ring_push_length (n : ℕ) (l : List Reading) (r : Reading) :
    (ring_push n l r).length ≤ n := by
  simp only [ring_push, List.length_drop, List.length_append, List.length_cons,
    List.length_nil]
  omega

lemma ring_push_full (n : ℕ) (l : List Reading) (r : Reading)
    (hl : l.length = n) (hn : 1 ≤ n) : ring_push n l r = l.tail ++ [r] := by
  unfold ring_push
  have hk : (l ++ [r]).length - n = 1 := by simp [hl]
  rw [hk, List.drop_append_of_le_length (by omega), List.drop_one]

lemma ring_push_getLast (n : ℕ) (l : List Reading) (r : Reading)
    (_hl : l.length ≤ n) (hn : 1 ≤ n) : (ring_push n l r).getLast? = some r := by
  unfold ring_push
  rw [List.drop_append_of_le_length (by simp; omega)]
  exact List.getLast?_concat _

/-- C2: if any issued sub-read of a `get_reading` cycle (begun Connected,
port open) returns a communication error, the cycle returns no reading, the
deque is unchanged, the status transitions to Error and the error message is
set; and a reading is pushed only when no issued sub-read erred. -/
theorem c2_get_reading_atomic (cfg : WeatherConfig) (env : ReadingEnv) (now : String)
    (s0 : SensorState) (hs : s0.status = .connected) (hp : s0.portOpen = true) :
    (cycle_comm_err env s0 →
      (get_reading cfg env now s0).1 = .noReading ∧
      (get_reading cfg env now s0).2.readings = s0.readings ∧
      (get_reading cfg env now s0).2.status = .error ∧
      ((get_reading cfg env now s0).2.lastError).isSome = true) ∧
    (∀ r, (get_reading cfg env now s0).1 = .reading r →
      ¬ cycle_comm_err env s0 ∧
      (get_reading cfg env now s0).2.readings = ring_push cfg.num_readings s0.readings r) := by
  have h := get_reading_run cfg env now s0 hs hp
  constructor
  · intro herr
    rw [h.1 herr]
    exact ⟨rfl, rfl, rfl, rfl⟩
  · intro r hr
    refine ⟨fun herr => ?_, by rw [(h.2.1 r hr).1]⟩
    rw [h.1 herr] at hr
    simp at hr

/-- A session state that is Connected with the port open and an empty deque. -/
def connState : SensorState :=
  { status := .connected, portOpen := true }

/-- An environment whose sky-temperature read fails and whose other reads
return `None`. -/
def skyErrEnv : ReadingEnv :=
  { values := .ok (fun _ => none), sky := .err, wind := .missing, rain_freq := .missing,
    humidity := .missing, pressure := .missing, rh_temp := .missing,
    press_temp := .missing, switch := .missing, pwm := .missing, ambient_ir := .missing }

/-- C2 witness: a failing sky-temperature read aborts the cycle with status
Error, a recorded message, and an untouched deque. -/
theorem c2_get_reading_atomic_witness :
    (get_reading {} skyErrEnv "t" connState).1 = .noReading ∧
    (get_reading {} skyErrEnv "t" connState).2.readings = connState.readings ∧
    (get_reading {} skyErrEnv "t" connState).2.status = .error ∧
    ((get_reading {} skyErrEnv "t" connState).2.lastError).isSome = true :=
  (c2_get_reading_atomic {} skyErrEnv "t" connState rfl rfl).1 (Or.inr (Or.inl rfl))

/-- C3: the readings deque never exceeds `num_readings` entries; a push onto
a full deque evicts the oldest entry; the last element after a push is the
pushed reading; and a cycle either pushes exactly its one successful reading
or leaves the deque unchanged (only fully successful readings enter). -/
theorem c3_ring_invariants (cfg : WeatherConfig) (env : ReadingEnv) (now : String)
    (s0 : SensorState) (hlen : s0.readings.length ≤ cfg.num_readings)
    (hn : 1 ≤ cfg.num_readings) :
    ((get_reading cfg env now s0).2.readings.length ≤ cfg.num_readings) ∧
    (∀ (l : List Reading) (r : Reading), l.length = cfg.num_readings →
      ring_push cfg.num_readings l r = l.tail ++ [r]) ∧
    (∀ (l : List Reading) (r : Reading), l.length ≤ cfg.num_readings →
      (ring_push cfg.num_readings l r).getLast? = some r) ∧
    ((∀ r, (get_reading cfg env now s0).1 ≠ .reading r) →
      (get_reading cfg env now s0).2.readings = s0.readings) ∧
    (∀ r, (get_reading cfg env now s0).1 = .reading r →
      (get_reading cfg env now s0).2.readings = ring_push cfg.num_readings s0.readings r) := by
  have h := get_reading_push_or_unchanged cfg env now s0
  refine ⟨?_, fun l r hl => ring_push_full _ _ _ hl hn,
    fun l r hl => ring_push_getLast _ _ _ hl hn, h.2, h.1⟩
  by_cases hex : ∃ r, (get_reading cfg env now s0).1 = .reading r
  · obtain ⟨r, hr⟩ := hex
    rw [h.1 r hr]
    exact ring_push_length _ _ _
  · push_neg at hex
    rw [h.2 hex]
    exact hlen

/-- An environment in which every single read returns `None` and the values
command returns no blocks: the cycle succeeds and publishes a reading with
every measured field absent and every raw field -99. -/
def quietEnv : ReadingEnv :=
  { values := .ok (fun _ => none), sky := .missing, wind := .missing,
    rain_freq := .missing, humidity := .missing, pressure := .missing,
    rh_temp := .missing, press_temp := .missing, switch := .missing,
    pwm := .missing, ambient_ir := .missing }

/-- The reading published from `quietEnv`. -/
def quietReading : Reading :=
  get_safe_reading {} []
    { timestamp := "t"
      light_sensor_period_raw := -99
      ambient_temp_ntc_raw := -99
      ambient_ldr_voltage_raw := -99
      zener_voltage_raw := -99
      rain_sensor_temp_ntc_raw := -99 }

/-- C3 witness: the deque bound after a successful cycle from an empty deque,
and eviction of the oldest entry on a full deque. -/
theorem c3_ring_invariants_witness :
    (get_reading {} quietEnv "t" connState).2.readings.length ≤ 10 ∧
    ring_push 10 (List.replicate 10 ({} : Reading)) ({} : Reading) =
      (List.replicate 10 ({} : Reading)).tail ++ [({} : Reading)] := by
  have h := c3_ring_invariants {} quietEnv "t" connState (by decide) (by decide)
  exact ⟨h.1, h.2.1 _ _ (by simp)⟩

/-- C10: every published reading carries the five raw-value fields as plain
integers produced by `get_values_raw`, which substitutes the sentinel -99
for a missing or unparsable block; and a light period of -99 is treated as
missing, leaving `sky_quality_mpsas` absent. -/
theorem c10_raw_sentinels (cfg : WeatherConfig) (env : ReadingEnv) (now : String)
    (s0 : SensorState) (r : Reading) (d : ValuesDict)
    (hr : (get_reading cfg env now s0).1 = .reading r) (hd : env.values = .ok d) :
    r.light_sensor_period_raw = get_values_raw d .lightSensor ∧
    r.ambient_temp_ntc_raw = get_values_raw d .ambient ∧
    r.ambient_ldr_voltage_raw = get_values_raw d .ldrVoltage ∧
    r.zener_voltage_raw = get_values_raw d .zenerVoltage ∧
    r.rain_sensor_temp_ntc_raw = get_values_raw d .sensorTemp ∧
    (∀ k, d k = none ∨ d k = some none → get_values_raw d k = -99) ∧
    (r.light_sensor_period_raw = -99 → r.sky_quality_mpsas = none) := by
  have hk : ∀ k, d k = none ∨ d k = some none → get_values_raw d k = -99 := by
    intro k h
    rcases h with h | h <;> simp [get_values_raw, h]
  by_cases hs : s0.status = .connected
  · by_cases hp : s0.portOpen = true
    · have h := ((get_reading_run cfg env now s0 hs hp).2.1 r hr).2 d hd
      exact ⟨h.1, h.2.1, h.2.2.1, h.2.2.2.1, h.2.2.2.2.1, hk, h.2.2.2.2.2⟩
    · have h := get_reading_port_closed cfg env now s0 hs (by simpa using hp)
      rw [h.1] at hr
      simp at hr
  · rw [get_reading_not_connected cfg env now s0 hs] at hr
    simp at hr

/-- C10 witness: with no values blocks and all reads `None`, the published
reading has raw fields -99 and no sky quality. -/
theorem c10_raw_sentinels_witness :
    (get_reading {} quietEnv "t" connState).1 = .reading quietReading ∧
    quietReading.light_sensor_period_raw = -99 ∧
    quietReading.sky_quality_mpsas = none := by
  have hr : (get_reading {} quietEnv "t" connState).1 = .reading quietReading := rfl
  have h := c10_raw_sentinels {} quietEnv "t" connState quietReading (fun _ => none) hr rfl
  exact ⟨hr, by rw [h.1]; rfl, h.2.2.2.2.2.2 (by rw [h.1]; rfl)⟩

/-- Device outcomes for the sub-steps of `connect`: the serial `open()`, the
four identity queries, and the echo of the initial `SetPWM` issued when a
heater is configured.  `windCap` is a `Bool` because `query` special-cases
the `v!` command and returns `'Y' in value`. -/
structure ConnectEnv where
  openOk : Bool
  name : QRes String
  firmware : QRes String
  serialNum : QRes String
  windCap : QRes Bool
  pwmEcho : QRes ℚ

/-- Error message recorded by the `except` branch of `connect`
(`"连接传感器失败: …"`; the text is not modelled, only its presence). -/
def connectFailMsg : String := "failed to connect to the sensor"

/-- The `except` branch of `connect`: status Error, error message recorded,
serial port closed. -/
def connectFail (s : SensorState) : SensorState :=
  { s with status := .error, lastError := some connectFailMsg, portOpen := false }

/-- Leftmost match of the pattern `\d+\.\d+` starting at the head of the
character list: maximal digit run, a dot, then a maximal nonempty digit run.
For this pattern greedy matching never has to shorten a digit run, so the
maximal-run scan is exact. -/
def matchVersionAt (cs : List Char) : Option (List Char) :=
  let r1 := cs.takeWhile Char.isDigit
  if r1.isEmpty then none
  else
    match cs.drop r1.length with
    | '.' :: rest2 =>
      let r2 := rest2.takeWhile Char.isDigit
      if r2.isEmpty then none else some (r1 ++ '.' :: r2)
    | _ => none

/-- `re.search(r"(\d+\.\d+)", ...)`: try a match at each position from the
left. -/
def searchVersion : List Char → Option (List Char)
  | [] => none
  | c :: cs =>
    match matchVersionAt (c :: cs) with
    | some m => some m
    | none => searchVersion cs

/-- The firmware-version extraction performed by `connect`
(weather.py 207-213). -/
def extractVersion (s : String) : Option String :=
  (searchVersion s.data).map (fun cs => String.mk cs)

/-- Shallow embedding of `CloudSensor.connect` (weather.py 162-254) with
`raise_exceptions = False` (the raising variant differs only in how the
failure is reported).  Status first becomes AttemptingReconnect; a failed
`open()` or a failed/None name, firmware or serial-number query, or a failed
anemometer-capability query, raises and lands in the `except` branch
(`connectFail`).  The `v!` result is a bool, so the source's
`isinstance(..., str)` test always leaves `has_anemometer` False.  A failed
initial `SetPWM` (heater configured) is deliberately tolerated: the source
prints a warning and continues, and the status still becomes Connected with
the error message cleared.  The wall-clock
`last_connection_attempt_timestamp` is not modelled. -/
def connect (cfg : WeatherConfig) (env : ConnectEnv) (s0 : SensorState) :
    Bool × SensorState :=
  let s := { s0 with status := ConnectionStatus.attemptingReconnect }
  if env.openOk = false then (false, connectFail s)
  else
    let s := { s with portOpen := true }
    match queryStep s env.name with
    | (s1, .err) => (false, connectFail s1)
    | (s1, .missing) => (false, connectFail s1)
    | (s1, .ok nm) =>
      let s1 := { s1 with name := nm }
      match queryStep s1 env.firmware with
      | (s2, .err) => (false, connectFail s2)
      | (s2, .missing) => (false, connectFail s2)
      | (s2, .ok fw) =>
        let s2 :=
          { s2 with
              firmware :=
                match extractVersion fw with
                | some ver => some ver
                | none => s2.firmware }
        match queryStep s2 env.serialNum with
        | (s3, .err) => (false, connectFail s3)
        | (s3, .missing) => (false, connectFail s3)
        | (s3, .ok sn) =>
          let s3 :=
            { s3 with
                serial_number :=
                  if 5 ≤ sn.length then some ((sn.drop 1).take 4) else none }
          match queryStep s3 env.windCap with
          | (s4, .err) => (false, connectFail s4)
          | (s4, _) =>
            let s4 := { s4 with has_anemometer := false, has_heater := cfg.have_heater }
            let s5 :=
              if cfg.have_heater = true then (queryStep s4 env.pwmEcho).1 else s4
            (true, { s5 with status := .connected, lastError := none })

/-- The sub-steps of `connect` whose failure the source actually propagates:
everything except the initial `SetPWM`. -/
def identity_fail (env : ConnectEnv) : Prop :=
  env.openOk = false ∨
  env.name = .err ∨ env.name = .missing ∨
  env.firmware = .err ∨ env.firmware = .missing ∨
  env.serialNum = .err ∨ env.serialNum = .missing ∨
  env.windCap = .err

lemma queryStep_err_att {α : Type} {s : SensorState} (hp : s.portOpen = true)
    (hs : s.status = .attemptingReconnect) :
    queryStep s (.err : QRes α) =
      ({ s with status := .error, lastError := some readErrMsg }, .err) := by
  simp [queryStep, hp, hs]

lemma queryStep_portOpen {α : Type} (s : SensorState) (q : QRes α) :
    (queryStep s q).1.portOpen = s.portOpen := by
  unfold queryStep
  split_ifs <;> cases q <;> simp_all

/-- C8 (amended): a failing sub-step among serial open and the four identity
queries (name, firmware, serial number, anemometer capability — a None
result counts as a failure for the first three) propagates: `connect`
returns False with status Error, a recorded error message and the port
closed.  When those five steps succeed `connect` returns True with status
Connected, the error message cleared and the port open — even if the initial
`SetPWM` for a configured heater fails, which the source tolerates with a
warning. -/
theorem c8_connect_atomic (cfg : WeatherConfig) (env : ConnectEnv) (s0 : SensorState) :
    (identity_fail env →
      (connect cfg env s0).1 = false ∧
      (connect cfg env s0).2.status = .error ∧
      ((connect cfg env s0).2.lastError).isSome = true ∧
      (connect cfg env s0).2.portOpen = false) ∧
    (¬ identity_fail env →
      (connect cfg env s0).1 = true ∧
      (connect cfg env s0).2.status = .connected ∧
      (connect cfg env s0).2.lastError = none ∧
      (connect cfg env s0).2.portOpen = true) := by
  by_cases ho : env.openOk = false
  · exact ⟨fun _ => by simp [connect, ho, connectFail],
      fun hni => absurd (Or.inl ho) hni⟩
  cases hn : env.name with
  | err =>
    exact ⟨fun _ => by simp [connect, ho, hn, queryStep_err_att, connectFail],
      fun hni => absurd (Or.inr (Or.inl hn)) hni⟩
  | missing =>
    exact ⟨fun _ => by simp [connect, ho, hn, queryStep_missing, connectFail],
      fun hni => absurd (Or.inr (Or.inr (Or.inl hn))) hni⟩
  | ok nm =>
    cases hf : env.firmware with
    | err =>
      exact ⟨fun _ => by
          simp [connect, ho, hn, hf, queryStep_ok, queryStep_err_att, connectFail],
        fun hni => absurd (Or.inr (Or.inr (Or.inr (Or.inl hf)))) hni⟩
    | missing =>
      exact ⟨fun _ => by
          simp [connect, ho, hn, hf, queryStep_ok, queryStep_missing, connectFail],
        fun hni => absurd (Or.inr (Or.inr (Or.inr (Or.inr (Or.inl hf))))) hni⟩
    | ok fw =>
      cases hsn : env.serialNum with
      | err =>
        exact ⟨fun _ => by
            simp [connect, ho, hn, hf, hsn, queryStep_ok, queryStep_err_att, connectFail],
          fun hni => absurd (Or.inr (Or.inr (Or.inr (Or.inr (Or.inr (Or.inl hsn)))))) hni⟩
      | missing =>
        exact ⟨fun _ => by
            simp [connect, ho, hn, hf, hsn, queryStep_ok, queryStep_missing, connectFail],
          fun hni =>
            absurd (Or.inr (Or.inr (Or.inr (Or.inr (Or.inr (Or.inr (Or.inl hsn))))))) hni⟩
      | ok sn =>
        cases hw : env.windCap with
        | err =>
          exact ⟨fun _ => by
              simp [connect, ho, hn, hf, hsn, hw, queryStep_ok, queryStep_err_att,
                connectFail],
            fun hni =>
              absurd (Or.inr (Or.inr (Or.inr (Or.inr (Or.inr (Or.inr (Or.inr hw)))))))
                hni⟩
        | missing =>
          have hni : ¬ identity_fail env := by
            rintro (h | h | h | h | h | h | h | h) <;> simp_all
          refine ⟨fun hfail => absurd hfail hni, fun _ => ?_⟩
          by_cases hh : cfg.have_heater = true <;>
            simp [connect, ho, hn, hf, hsn, hw, hh, queryStep_ok, queryStep_missing,
              queryStep_portOpen]
        | ok b =>
          have hni : ¬ identity_fail env := by
            rintro (h | h | h | h | h | h | h | h) <;> simp_all
          refine ⟨fun hfail => absurd hfail hni, fun _ => ?_⟩
          by_cases hh : cfg.have_heater = true <;>
            simp [connect, ho, hn, hf, hsn, hw, hh, queryStep_ok, queryStep_portOpen]

/-- A configuration with a heater, so `connect` issues the initial SetPWM. -/
def c8Cfg : WeatherConfig := { have_heater := true }

/-- Identity queries succeed but the initial SetPWM gets a communication
error. -/
def c8Env : ConnectEnv :=
  { openOk := true, name := .ok "CloudWatcher", firmware := .ok "V5.12",
    serialNum := .ok "K1234x", windCap := .ok false, pwmEcho := .err }

/-- C8 counterexample: with a heater configured, a failing SetPWM sub-step
does NOT propagate — `connect` still returns True with status Connected and
no error message, contradicting the claim that every failing sub-step
(including SetPWM) leaves status Error. -/
theorem c8_connect_pwm_counterexample :
    c8Cfg.have_heater = true ∧ c8Env.pwmEcho = .err ∧
    (connect c8Cfg c8Env ({} : SensorState)).1 = true ∧
    (connect c8Cfg c8Env ({} : SensorState)).2.status = .connected ∧
    (connect c8Cfg c8Env ({} : SensorState)).2.lastError = none := by
  refine ⟨rfl, rfl, rfl, rfl, rfl⟩

/-- An environment whose name query fails. -/
def c8NameErrEnv : ConnectEnv :=
  { openOk := true, name := .err, firmware := .ok "V1.0",
    serialNum := .ok "K1234x", windCap := .missing, pwmEcho := .missing }

/-- An environment in which all identity steps succeed (no heater involved). -/
def c8OkEnv : ConnectEnv :=
  { openOk := true, name := .ok "N", firmware := .ok "V1.0",
    serialNum := .ok "K1234x", windCap := .missing, pwmEcho := .missing }

/-- C8 witness: a failing identity query yields False/Error with the port
closed; an all-success run yields True/Connected with the port open. -/
theorem c8_connect_atomic_witness :
    ((connect {} c8NameErrEnv ({} : SensorState)).1 = false ∧
     (connect {} c8NameErrEnv ({} : SensorState)).2.status = .error ∧
     (connect {} c8NameErrEnv ({} : SensorState)).2.portOpen = false) ∧
    ((connect {} c8OkEnv ({} : SensorState)).1 = true ∧
     (connect {} c8OkEnv ({} : SensorState)).2.status = .connected ∧
     (connect {} c8OkEnv ({} : SensorState)).2.portOpen = true) := by
  have h1 := (c8_connect_atomic {} c8NameErrEnv {}).1 (Or.inr (Or.inl rfl))
  have h2 := (c8_connect_atomic {} c8OkEnv {}).2 (by
    rintro (h | h | h | h | h | h | h | h) <;> simp_all [c8OkEnv])
  exact ⟨⟨h1.1, h1.2.1, h1.2.2.2⟩, ⟨h2.1, h2.2.1, h2.2.2.2⟩⟩

end AAG
